import Mathlib

/-!
Verification development for the odomos-dsi document processing pipeline.

The first part embeds code that is present in the repository sources
(the frontend status mapper and the file size display expression).
The later parts model the pipeline orchestrator, background task runner,
bulk intake coordinator and review-update operation from the design
specification, because the backend service application code is not part
of the available sources.
-/

namespace OdomosDsi

/-! Frontend status mapping, from frontend/lib/documentApi.ts,
function mapDocumentStatus.  The TypeScript switches on
status?.toLowerCase(); a switch over string literals is a chain of
equality tests against each case label, with a default arm. -/

inductive FrontStatus where
  | pending
  | processing
  | uploaded
  | parsed
  | structured
  | failed
deriving DecidableEq, Repr

/-- ASCII lowercasing of a string, the behavior of toLowerCase() on the
status strings this code receives, written as a structural map over the
character list so that it evaluates by kernel reduction. -/
def strLower (s : String) : String :=
  ⟨s.data.map Char.toLower⟩

/-- Core of the switch statement in mapDocumentStatus: the scrutinee is
the already lowercased status string. -/
def mapStatusCore (l : String) : FrontStatus :=
  if l = "pending" then .pending
  else if l = "processing" then .processing
  else if l = "completed" then .uploaded
  else if l = "uploaded" then .uploaded
  else if l = "parsed" then .parsed
  else if l = "structured" then .structured
  else if l = "failed" then .failed
  else if l = "error" then .failed
  else .pending

/-- mapDocumentStatus from frontend/lib/documentApi.ts: an undefined
status (modelled as none) falls through the optional chaining to the
default arm, otherwise the switch runs on the lowercased string. -/
def mapDocumentStatus (status : Option String) : FrontStatus :=
  match status with
  | none => .pending
  | some s => mapStatusCore (strLower s)

/-- The case labels recognized by the switch in mapDocumentStatus. -/
def recognizedLabels : List String :=
  ["pending", "processing", "completed", "uploaded",
   "parsed", "structured", "failed", "error"]

/-! File size display, from frontend/app/report-detail/[id]/page.tsx.
The rendered expression is (report.document?.file_info.size || 0 / 1024)
and division binds tighter than logical or, so it parses as
size || (0 / 1024).  A numeric JavaScript or-expression yields the left
operand when it is nonzero and the right operand otherwise; an absent
left operand (undefined) also yields the right operand. -/

def jsOrNum (a : Option ℚ) (b : ℚ) : ℚ :=
  match a with
  | none => b
  | some x => if x = 0 then b else x

/-- Numeric value handed to toFixed(2) by the File Size cell, with the
parenthesization the parser actually produces. -/
def fileSizeShown (size : Option ℚ) : ℚ :=
  jsOrNum size (0 / 1024)

end OdomosDsi

namespace OdomosDsi

lemma mapStatusCore_default (l : String) (h : l ∉ recognizedLabels) :
    mapStatusCore l = .pending := by
  simp only [recognizedLabels, List.mem_cons, List.not_mem_nil, or_false] at h
  push_neg at h
  obtain ⟨h1, h2, h3, h4, h5, h6, h7, h8⟩ := h
  simp [mapStatusCore, h1, h2, h3, h4, h5, h6, h7, h8]

/-- C9: mapDocumentStatus is total on status strings: it always returns
one of the six frontend statuses, is case-insensitive (it only depends on
the lowercased input), maps both completed and uploaded to uploaded and
both failed and error to failed, and maps an undefined status, the
backend status predicted, and every string outside the recognized case
labels to pending. -/
theorem mapDocumentStatus_total_spec :
    (∀ s : String, mapDocumentStatus (some s) ∈
      [FrontStatus.pending, FrontStatus.processing, FrontStatus.uploaded,
       FrontStatus.parsed, FrontStatus.structured, FrontStatus.failed]) ∧
    (∀ s t : String, strLower s = strLower t →
      mapDocumentStatus (some s) = mapDocumentStatus (some t)) ∧
    mapDocumentStatus (some "completed") = .uploaded ∧
    mapDocumentStatus (some "uploaded") = .uploaded ∧
    mapDocumentStatus (some "failed") = .failed ∧
    mapDocumentStatus (some "error") = .failed ∧
    mapDocumentStatus none = .pending ∧
    mapDocumentStatus (some "predicted") = .pending ∧
    (∀ s : String, strLower s ∉ recognizedLabels →
      mapDocumentStatus (some s) = .pending) := by
  refine ⟨?_, ?_, by decide, by decide, by decide, by decide, rfl, by decide, ?_⟩
  · intro s
    cases h : mapDocumentStatus (some s) <;> simp
  · intro s t h
    simp only [mapDocumentStatus, h]
  · intro s h
    simp only [mapDocumentStatus]
    exact mapStatusCore_default _ h

/-- Concrete instances for the hypothesis-bearing parts of the C9
theorem: case-insensitivity applied to STRUCTURED versus structured, and
the default arm applied to the string prediction_completed. -/
theorem mapDocumentStatus_total_spec_witness :
    (strLower "STRUCTURED" = strLower "structured" ∧
      mapDocumentStatus (some "STRUCTURED") = mapDocumentStatus (some "structured")) ∧
    (strLower "prediction_completed" ∉ recognizedLabels ∧
      mapDocumentStatus (some "prediction_completed") = .pending) :=
  ⟨⟨by decide, mapDocumentStatus_total_spec.2.1 "STRUCTURED" "structured" (by decide)⟩,
   ⟨by decide, mapDocumentStatus_total_spec.2.2.2.2.2.2.2.2 "prediction_completed" (by decide)⟩⟩

/-- C10: because the or-expression in the File Size cell parses as
size || (0 / 1024), a nonzero size s is rendered as the raw byte count s
(then formatted with toFixed(2)), never divided by 1024; only a zero or
absent size yields 0. -/
theorem fileSizeShown_raw_bytes :
    (∀ s : ℚ, s ≠ 0 → fileSizeShown (some s) = s) ∧
    fileSizeShown (some 0) = 0 ∧
    fileSizeShown none = 0 := by
  refine ⟨?_, by norm_num [fileSizeShown, jsOrNum], by norm_num [fileSizeShown, jsOrNum]⟩
  intro s hs
  simp [fileSizeShown, jsOrNum, hs]

/-- Concrete instance of the C10 theorem: a 2048 byte file is rendered
as 2048, the raw byte count, not as 2. -/
theorem fileSizeShown_raw_bytes_witness :
    (2048 : ℚ) ≠ 0 ∧ fileSizeShown (some 2048) = 2048 :=
  ⟨by norm_num, fileSizeShown_raw_bytes.1 2048 (by norm_num)⟩

/-! Pipeline model.  The backend application code (document-ingestion,
information-structuring and risk-prediction services) is not among the
available sources; only its design documents are.  The definitions below
are therefore modelled from the specification, sections 3 to 7. -/

/-- Modelled from the spec: the document status lifecycle of the
Pipeline Orchestrator (spec 4.1). -/
inductive Status where
  | received
  | extracted
  | structured
  | prediction_pending
  | prediction_completed
  | extracting_failed
  | structuring_failed
  | prediction_failed
deriving DecidableEq, Repr

/-- Modelled from the spec: raw file metadata carried by a submission
(spec 3, Document). -/
structure RawFile where
  name : String
  size : Nat
  contentType : String
deriving DecidableEq, Repr

/-- Modelled from the spec: the error a stage adapter reports (spec 7). -/
structure StageError where
  message : String
deriving DecidableEq, Repr

/-- Modelled from the spec: a validation failure rejected before any
Document is created (spec 7). -/
structure ValidationError where
  message : String
deriving DecidableEq, Repr

/-- Modelled from the spec: a persisted PredictionOutput (spec 3): label,
confidence, probability distribution, model version, and the reviewer
fields that only the review-update operation may change. -/
structure PredictionRecord where
  label : String
  confidence : ℚ
  probabilities : List (String × ℚ)
  modelVersion : String
  reviewStatus : Option String
  coordinatorNotes : Option String
  reviewedAt : Option Nat
deriving DecidableEq, Repr

/-- Modelled from the spec: the three stage client adapters, each a black
box returning a result or a stage error (spec 6). -/
structure Adapters where
  extractText : RawFile → Except StageError String
  structureFields : String → Except StageError (List (String × String))
  predictRisk : List (String × String) → Except StageError PredictionRecord

/-- Modelled from the spec: the Document entity (spec 3). -/
structure Document where
  id : Nat
  fileName : String
  fileSize : Nat
  contentType : String
  submitter : String
  status : Status
  stageFault : Option (String × String)
deriving DecidableEq, Repr

/-- Modelled from the spec: intake validation policy, a size ceiling and
an allowed content type list (spec 4.1). -/
structure IntakeConfig where
  maxFileSize : Nat
  allowedTypes : List String

/-- Modelled from the spec: submit validates that the file is non-empty,
within the size ceiling and of an allowed declared type (spec 4.1). -/
def validFile (cfg : IntakeConfig) (f : RawFile) : Bool :=
  decide (0 < f.size) && decide (f.size ≤ cfg.maxFileSize)
    && cfg.allowedTypes.contains f.contentType

/-- Outcome of a single submit call: the persisted Document, the ordered
list of statuses the document went through before the call returned, and
the prediction jobs handed to the background runner (document id and
generation token), queued but not yet executed. -/
structure SubmitOutcome where
  doc : Document
  trace : List Status
  dispatched : List (Nat × Nat)
deriving DecidableEq, Repr

/-- Modelled from the spec: Pipeline Orchestrator submit (spec 4.1).
After validation the document is created at received; extraction and
structuring run synchronously; a synchronous stage failure persists the
stage fault and stops; on structuring success the status is structured
and a prediction job is dispatched to the background runner as a queued
side effect, so the call returns without invoking the prediction
adapter. -/
def submit (cfg : IntakeConfig) (A : Adapters) (f : RawFile)
    (submitter : String) (newId : Nat) : Except ValidationError SubmitOutcome :=
  if validFile cfg f then
    let d0 : Document :=
      { id := newId, fileName := f.name, fileSize := f.size,
        contentType := f.contentType, submitter := submitter,
        status := .received, stageFault := none }
    match A.extractText f with
    | .error e =>
        .ok { doc := { d0 with status := .extracting_failed,
                               stageFault := some ("extraction", e.message) },
              trace := [.received, .extracting_failed],
              dispatched := [] }
    | .ok text =>
        match A.structureFields text with
        | .error e =>
            .ok { doc := { d0 with status := .structuring_failed,
                                   stageFault := some ("structuring", e.message) },
                  trace := [.received, .extracted, .structuring_failed],
                  dispatched := [] }
        | .ok _fields =>
            .ok { doc := { d0 with status := .structured },
                  trace := [.received, .extracted, .structured],
                  dispatched := [(newId, 0)] }
  else .error { message := "invalid file" }

/-- C1: for every valid single-file submission the returned outcome shows
the status advancing received, extracted, structured synchronously, the
final status is structured and in particular never prediction_completed,
exactly one prediction job is dispatched as a queued side effect of
entering structured, and the returned value does not depend on the
prediction adapter at all, so prediction is non-blocking. -/
theorem submit_advances_and_dispatches
    (cfg : IntakeConfig) (A : Adapters) (f : RawFile) (submitter : String)
    (newId : Nat) (text : String) (fields : List (String × String))
    (hv : validFile cfg f = true)
    (hx : A.extractText f = .ok text)
    (hs : A.structureFields text = .ok fields) :
    ∃ out : SubmitOutcome,
      submit cfg A f submitter newId = .ok out ∧
      out.trace = [.received, .extracted, .structured] ∧
      out.doc.status = .structured ∧
      out.doc.status ≠ .prediction_completed ∧
      out.dispatched = [(newId, 0)] ∧
      (∀ B : Adapters, B.extractText = A.extractText →
        B.structureFields = A.structureFields →
        submit cfg B f submitter newId = submit cfg A f submitter newId) := by
  have heq : submit cfg A f submitter newId = .ok
      { doc := { id := newId, fileName := f.name, fileSize := f.size,
                 contentType := f.contentType, submitter := submitter,
                 status := .structured, stageFault := none },
        trace := [.received, .extracted, .structured],
        dispatched := [(newId, 0)] } := by
    simp only [submit, hv, if_true, hx, hs]
  exact ⟨_, heq, rfl, rfl, by simp, rfl,
    fun B hB1 hB2 => by simp only [submit, hB1, hB2]⟩

/-- Concrete instance of the C1 theorem: a valid pdf submission with
adapters that succeed on it. -/
theorem submit_advances_and_dispatches_witness :
    ∃ out : SubmitOutcome,
      submit { maxFileSize := 10485760, allowedTypes := ["application/pdf"] }
        { extractText := fun f => .ok f.name,
          structureFields := fun t => .ok [("observations", t)],
          predictRisk := fun _ => .error { message := "model not loaded" } }
        { name := "report.pdf", size := 2048, contentType := "application/pdf" }
        "clinic" 7 = .ok out ∧
      out.trace = [.received, .extracted, .structured] ∧
      out.doc.status = .structured ∧
      out.doc.status ≠ .prediction_completed ∧
      out.dispatched = [(7, 0)] ∧
      (∀ B : Adapters,
        B.extractText = (fun f : RawFile => Except.ok f.name) →
        B.structureFields = (fun t : String => Except.ok [("observations", t)]) →
        submit { maxFileSize := 10485760, allowedTypes := ["application/pdf"] } B
          { name := "report.pdf", size := 2048, contentType := "application/pdf" }
          "clinic" 7 =
        submit { maxFileSize := 10485760, allowedTypes := ["application/pdf"] }
          { extractText := fun f => .ok f.name,
            structureFields := fun t => .ok [("observations", t)],
            predictRisk := fun _ => .error { message := "model not loaded" } }
          { name := "report.pdf", size := 2048, contentType := "application/pdf" }
          "clinic" 7) :=
  submit_advances_and_dispatches _ _ _ _ 7 "report.pdf" [("observations", "report.pdf")]
    (by decide) rfl rfl

/-- Modelled from the spec: the per-document state the Background Task
Runner writes through, holding the Document, the current generation of
the prediction stage, and the current (non-superseded) prediction
StageResult (spec 3, 4.2). -/
structure DocState where
  doc : Document
  generation : Nat
  prediction : Option PredictionRecord
deriving DecidableEq, Repr

/-- Modelled from the spec: the write-back of a completed prediction,
tagged with the generation token it was dispatched with; it is applied
only when the token still equals the current generation of the document,
otherwise it is discarded as stale (spec 4.2, glossary). -/
def writeBack (d : DocState) (token : Nat) (p : PredictionRecord) : DocState :=
  if token = d.generation then
    { d with prediction := some p,
             doc := { d.doc with status := .prediction_completed } }
  else d

/-- Modelled from the spec: a manual retry of the prediction stage
(spec 4.1 retry): it advances the generation, producing the token the new
dispatch carries, and re-enters prediction_pending. -/
def retryPrediction (d : DocState) : DocState × Nat :=
  ({ d with generation := d.generation + 1,
            doc := { d.doc with status := .prediction_pending } },
   d.generation + 1)

/-- C2: a write-back whose generation token differs from the current
generation of the document is discarded and changes nothing; in
particular, when a retry supersedes an in-flight dispatch and the new
generation completes first, the eventual stale write-back of the old
dispatch leaves the result of the newer generation in place. -/
theorem writeBack_stale_discarded
    (d : DocState) (pNew pOld : PredictionRecord) :
    (∀ token, token ≠ d.generation → writeBack d token pOld = d) ∧
    writeBack (writeBack (retryPrediction d).1 (retryPrediction d).2 pNew)
        d.generation pOld =
      writeBack (retryPrediction d).1 (retryPrediction d).2 pNew ∧
    (writeBack (retryPrediction d).1 (retryPrediction d).2 pNew).prediction
      = some pNew := by
  refine ⟨fun token ht => by simp [writeBack, ht], ?_, ?_⟩
  · have hne : d.generation ≠ d.generation + 1 := (Nat.succ_ne_self d.generation).symm
    simp [writeBack, retryPrediction, hne]
  · simp [writeBack, retryPrediction]

/-- Concrete instance of the C2 theorem: a stale token, one smaller than
the current generation, is discarded. -/
theorem writeBack_stale_discarded_witness :
    (0 : Nat) ≠ (1 : Nat) ∧
    writeBack
      { doc := { id := 1, fileName := "r.pdf", fileSize := 9,
                 contentType := "application/pdf", submitter := "clinic",
                 status := .prediction_pending, stageFault := none },
        generation := 1, prediction := none } 0
      { label := "BIRADS 2", confidence := 1, probabilities := [],
        modelVersion := "v1", reviewStatus := none,
        coordinatorNotes := none, reviewedAt := none } =
    { doc := { id := 1, fileName := "r.pdf", fileSize := 9,
               contentType := "application/pdf", submitter := "clinic",
               status := .prediction_pending, stageFault := none },
      generation := 1, prediction := none } :=
  ⟨by decide,
   (writeBack_stale_discarded
      { doc := { id := 1, fileName := "r.pdf", fileSize := 9,
                 contentType := "application/pdf", submitter := "clinic",
                 status := .prediction_pending, stageFault := none },
        generation := 1, prediction := none }
      { label := "BIRADS 2", confidence := 1, probabilities := [],
        modelVersion := "v1", reviewStatus := none,
        coordinatorNotes := none, reviewedAt := none }
      { label := "BIRADS 2", confidence := 1, probabilities := [],
        modelVersion := "v1", reviewStatus := none,
        coordinatorNotes := none, reviewedAt := none }).1 0 (by decide)⟩

/-- Modelled from the spec: the Background Task Runner bookkeeping
(spec 4.2): the set of documents with a prediction task currently in
flight, and the ordered list of accepted jobs, each carrying its document
id and generation token and producing exactly one write-back. -/
structure Runner where
  inFlight : List Nat
  jobs : List (Nat × Nat)
deriving DecidableEq, Repr

/-- Modelled from the spec: dispatch of a prediction job (spec 4.2): a
second dispatch for a document already in flight is coalesced, that is
ignored rather than queued redundantly. -/
def dispatch (r : Runner) (docId gen : Nat) : Runner :=
  if docId ∈ r.inFlight then r
  else { inFlight := docId :: r.inFlight, jobs := r.jobs ++ [(docId, gen)] }

/-- C3: at most one prediction task runs per document: after a dispatch
the document is in flight, a second dispatch for the same document in
quick succession is a no-op, and when the document was idle the two
dispatches together accept exactly one job, hence one write-back for that
generation and never two conflicting completed results. -/
theorem dispatch_coalesced (r : Runner) (docId gen gen2 : Nat) :
    docId ∈ (dispatch r docId gen).inFlight ∧
    dispatch (dispatch r docId gen) docId gen2 = dispatch r docId gen ∧
    (docId ∉ r.inFlight →
      (dispatch (dispatch r docId gen) docId gen2).jobs = r.jobs ++ [(docId, gen)] ∧
      ((dispatch (dispatch r docId gen) docId gen2).jobs.countP
          (fun j => j.1 = docId))
        = r.jobs.countP (fun j => j.1 = docId) + 1) := by
  by_cases h : docId ∈ r.inFlight
  · refine ⟨by simp [dispatch, h], by simp [dispatch, h], fun hn => absurd h hn⟩
  · have h1 : dispatch r docId gen =
        { inFlight := docId :: r.inFlight, jobs := r.jobs ++ [(docId, gen)] } := by
      simp [dispatch, h]
    have h2 : dispatch (dispatch r docId gen) docId gen2 = dispatch r docId gen := by
      rw [h1]
      simp [dispatch]
    refine ⟨by rw [h1]; exact List.mem_cons_self _ _, h2, fun _ => ?_⟩
    rw [h2, h1]
    constructor
    · rfl
    · simp [List.countP_append, List.countP_cons]

/-- Concrete instance of the C3 theorem: two immediate dispatches for
document 5 on an idle runner accept exactly one job. -/
theorem dispatch_coalesced_witness :
    (5 : Nat) ∈ (dispatch { inFlight := [], jobs := [] } 5 0).inFlight ∧
    dispatch (dispatch { inFlight := [], jobs := [] } 5 0) 5 0 =
      dispatch { inFlight := [], jobs := [] } 5 0 ∧
    (dispatch (dispatch { inFlight := [], jobs := [] } 5 0) 5 0).jobs
        = [] ++ [(5, 0)] ∧
    ((dispatch (dispatch { inFlight := [], jobs := [] } 5 0) 5 0).jobs.countP
        (fun j => j.1 = 5))
      = ([] : List (Nat × Nat)).countP (fun j => j.1 = 5) + 1 :=
  ⟨(dispatch_coalesced { inFlight := [], jobs := [] } 5 0 0).1,
   (dispatch_coalesced { inFlight := [], jobs := [] } 5 0 0).2.1,
   (dispatch_coalesced { inFlight := [], jobs := [] } 5 0 0).2.2 (by simp)⟩

/-- Modelled from the spec: the error taxonomy surfaced by the exposed
operations (spec 7). -/
inductive DomainError where
  | validationFault
  | stageFault
  | notFound
  | conflict
deriving DecidableEq, Repr

/-- Modelled from the spec: the review-update operation (spec 3, 6, 7):
it is scoped to the review fields of the current PredictionOutput; when
no prediction exists yet for the document it is a ConflictError and the
state is returned unchanged.  The frontend client in
frontend/lib/documentApi.ts, updateReviewStatus, sends exactly the review
status and coordinator notes to this operation. -/
def updateReviewStatus (d : DocState) (reviewStatus : String)
    (coordinatorNotes : Option String) (now : Nat) :
    Except DomainError PredictionRecord × DocState :=
  match d.prediction with
  | none => (.error .conflict, d)
  | some p =>
      let p2 : PredictionRecord :=
        { p with reviewStatus := some reviewStatus,
                 coordinatorNotes := coordinatorNotes,
                 reviewedAt := some now }
      (.ok p2, { d with prediction := some p2 })

/-- C6: a review-update for a document that has no prediction record yet
returns a ConflictError and leaves the whole document state, review
fields included, unchanged. -/
theorem updateReviewStatus_conflict_when_no_prediction
    (d : DocState) (rs : String) (notes : Option String) (now : Nat)
    (h : d.prediction = none) :
    updateReviewStatus d rs notes now = (.error .conflict, d) := by
  simp [updateReviewStatus, h]

/-- Concrete instance of the C6 theorem. -/
theorem updateReviewStatus_conflict_when_no_prediction_witness :
    updateReviewStatus
      { doc := { id := 3, fileName := "r.pdf", fileSize := 9,
                 contentType := "application/pdf", submitter := "clinic",
                 status := .prediction_pending, stageFault := none },
        generation := 0, prediction := none }
      "Under Review" (some "looks urgent") 100 =
    (.error .conflict,
      { doc := { id := 3, fileName := "r.pdf", fileSize := 9,
                 contentType := "application/pdf", submitter := "clinic",
                 status := .prediction_pending, stageFault := none },
        generation := 0, prediction := none }) :=
  updateReviewStatus_conflict_when_no_prediction
    { doc := { id := 3, fileName := "r.pdf", fileSize := 9,
               contentType := "application/pdf", submitter := "clinic",
               status := .prediction_pending, stageFault := none },
      generation := 0, prediction := none }
    "Under Review" (some "looks urgent") 100 rfl

/-- C7: a successful review-update changes only the review fields of the
PredictionOutput: the label, confidence, probability distribution and
model version of the prediction, the Document itself and the generation
are all unchanged.  Moreover no other modelled operation edits the review
fields of an existing record: a retry leaves the prediction record
untouched, and a write-back either discards its input as stale or
replaces the record wholesale with the freshly computed adapter output,
which is a superseding creation, not an edit of the review fields. -/
theorem updateReviewStatus_frame
    (d : DocState) (p : PredictionRecord) (rs : String)
    (notes : Option String) (now : Nat)
    (h : d.prediction = some p) :
    ∃ p2 : PredictionRecord,
      updateReviewStatus d rs notes now = (.ok p2, { d with prediction := some p2 }) ∧
      p2.label = p.label ∧
      p2.confidence = p.confidence ∧
      p2.probabilities = p.probabilities ∧
      p2.modelVersion = p.modelVersion ∧
      p2.reviewStatus = some rs ∧
      p2.coordinatorNotes = notes ∧
      p2.reviewedAt = some now ∧
      (updateReviewStatus d rs notes now).2.doc = d.doc ∧
      (updateReviewStatus d rs notes now).2.generation = d.generation ∧
      (retryPrediction d).1.prediction = d.prediction ∧
      (∀ token q, (writeBack d token q).prediction = d.prediction ∨
        (writeBack d token q).prediction = some q) := by
  refine ⟨{ p with reviewStatus := some rs, coordinatorNotes := notes,
                   reviewedAt := some now },
    by simp [updateReviewStatus, h], rfl, rfl, rfl, rfl, rfl, rfl, rfl,
    by simp [updateReviewStatus, h], by simp [updateReviewStatus, h],
    by simp [retryPrediction], ?_⟩
  intro token q
  by_cases ht : token = d.generation
  · exact Or.inr (by simp [writeBack, ht])
  · exact Or.inl (by simp [writeBack, ht])

/-- Concrete instance of the C7 theorem: updating the review of a
document whose prediction exists changes only the review fields. -/
theorem updateReviewStatus_frame_witness :
    ∃ p2 : PredictionRecord,
      updateReviewStatus
        { doc := { id := 4, fileName := "r.pdf", fileSize := 9,
                   contentType := "application/pdf", submitter := "clinic",
                   status := .prediction_completed, stageFault := none },
          generation := 0,
          prediction := some { label := "BIRADS 2", confidence := 1,
                               probabilities := [("2", 1)], modelVersion := "v1",
                               reviewStatus := none, coordinatorNotes := none,
                               reviewedAt := none } }
        "Review Complete" (some "benign") 200 =
        (.ok p2,
          { doc := { id := 4, fileName := "r.pdf", fileSize := 9,
                     contentType := "application/pdf", submitter := "clinic",
                     status := .prediction_completed, stageFault := none },
            generation := 0,
            prediction := some p2 }) ∧
      p2.label = "BIRADS 2" ∧
      p2.confidence = 1 ∧
      p2.probabilities = [("2", 1)] ∧
      p2.modelVersion = "v1" ∧
      p2.reviewStatus = some "Review Complete" ∧
      p2.coordinatorNotes = some "benign" ∧
      p2.reviewedAt = some 200 := by
  obtain ⟨p2, h1, h2, h3, h4, h5, h6, h7, h8, -⟩ :=
    updateReviewStatus_frame
      { doc := { id := 4, fileName := "r.pdf", fileSize := 9,
                 contentType := "application/pdf", submitter := "clinic",
                 status := .prediction_completed, stageFault := none },
        generation := 0,
        prediction := some { label := "BIRADS 2", confidence := 1,
                             probabilities := [("2", 1)], modelVersion := "v1",
                             reviewStatus := none, coordinatorNotes := none,
                             reviewedAt := none } }
      { label := "BIRADS 2", confidence := 1, probabilities := [("2", 1)],
        modelVersion := "v1", reviewStatus := none, coordinatorNotes := none,
        reviewedAt := none }
      "Review Complete" (some "benign") 200 rfl
  exact ⟨p2, h1, h2, h3, h4, h5, h6, h7, h8⟩

/-- A rational number lies in the closed unit interval. -/
def boundedUnit (q : ℚ) : Bool :=
  decide (0 ≤ q) && decide (q ≤ 1)

/-- Modelled from the spec: the data model invariant on a persisted
PredictionOutput (spec 3): the confidence score and every probability
value lie in the closed interval from 0 to 1. -/
def wfPrediction (p : PredictionRecord) : Bool :=
  boundedUnit p.confidence && p.probabilities.all (fun e => boundedUnit e.2)

/-- The invariant lifted to the per-document state: the current
prediction record, when present, is well formed. -/
def wfDocState (d : DocState) : Bool :=
  match d.prediction with
  | none => true
  | some p => wfPrediction p

/-- C8: the confidence and probability bounds hold in every state
reachable by the operations that write a prediction: a review-update
never touches the confidence or the distribution, a write-back preserves
the invariant whenever the adapter output it persists satisfies the
declared bounds, and a retry leaves the stored prediction unchanged. -/
theorem wfDocState_preserved
    (d : DocState) (rs : String) (notes : Option String) (now : Nat)
    (token : Nat) (q : PredictionRecord) :
    (wfDocState d = true →
      wfDocState (updateReviewStatus d rs notes now).2 = true) ∧
    (wfDocState d = true → wfPrediction q = true →
      wfDocState (writeBack d token q) = true) ∧
    (wfDocState d = true → wfDocState (retryPrediction d).1 = true) := by
  refine ⟨?_, ?_, ?_⟩
  · intro hd
    cases hp : d.prediction with
    | none => simp [updateReviewStatus, hp, wfDocState]
    | some p =>
        have hw : wfPrediction p = true := by
          simpa [wfDocState, hp] using hd
        simp only [updateReviewStatus, hp, wfDocState]
        simpa [wfPrediction] using hw
  · intro hd hq
    by_cases ht : token = d.generation
    · simp [writeBack, ht, wfDocState, hq]
    · simpa [writeBack, ht] using hd
  · intro hd
    simpa [retryPrediction, wfDocState] using hd

/-- Concrete instance of the C8 theorem, at a state holding a well formed
prediction and a well formed incoming adapter output. -/
theorem wfDocState_preserved_witness :
    wfDocState
      { doc := { id := 8, fileName := "r.pdf", fileSize := 9,
                 contentType := "application/pdf", submitter := "clinic",
                 status := .prediction_completed, stageFault := none },
        generation := 0,
        prediction := some { label := "BIRADS 2", confidence := 1,
                             probabilities := [("2", 1), ("3", 0)],
                             modelVersion := "v1", reviewStatus := none,
                             coordinatorNotes := none, reviewedAt := none } }
      = true ∧
    wfPrediction { label := "BIRADS 3", confidence := 1,
                   probabilities := [("3", 1)], modelVersion := "v1",
                   reviewStatus := none, coordinatorNotes := none,
                   reviewedAt := none } = true ∧
    wfDocState (updateReviewStatus
      { doc := { id := 8, fileName := "r.pdf", fileSize := 9,
                 contentType := "application/pdf", submitter := "clinic",
                 status := .prediction_completed, stageFault := none },
        generation := 0,
        prediction := some { label := "BIRADS 2", confidence := 1,
                             probabilities := [("2", 1), ("3", 0)],
                             modelVersion := "v1", reviewStatus := none,
                             coordinatorNotes := none, reviewedAt := none } }
      "Under Review" none 300).2 = true ∧
    wfDocState (writeBack
      { doc := { id := 8, fileName := "r.pdf", fileSize := 9,
                 contentType := "application/pdf", submitter := "clinic",
                 status := .prediction_completed, stageFault := none },
        generation := 0,
        prediction := some { label := "BIRADS 2", confidence := 1,
                             probabilities := [("2", 1), ("3", 0)],
                             modelVersion := "v1", reviewStatus := none,
                             coordinatorNotes := none, reviewedAt := none } }
      0
      { label := "BIRADS 3", confidence := 1, probabilities := [("3", 1)],
        modelVersion := "v1", reviewStatus := none, coordinatorNotes := none,
        reviewedAt := none }) = true := by
  have hd : wfDocState
      { doc := { id := 8, fileName := "r.pdf", fileSize := 9,
                 contentType := "application/pdf", submitter := "clinic",
                 status := .prediction_completed, stageFault := none },
        generation := 0,
        prediction := some { label := "BIRADS 2", confidence := 1,
                             probabilities := [("2", 1), ("3", 0)],
                             modelVersion := "v1", reviewStatus := none,
                             coordinatorNotes := none, reviewedAt := none } }
      = true := by decide
  have hq : wfPrediction
      { label := "BIRADS 3", confidence := 1,
        probabilities := [("3", 1)], modelVersion := "v1",
        reviewStatus := none, coordinatorNotes := none,
        reviewedAt := none } = true := by decide
  exact ⟨hd, hq,
    (wfDocState_preserved _ "Under Review" none 300 0
      { label := "BIRADS 3", confidence := 1, probabilities := [("3", 1)],
        modelVersion := "v1", reviewStatus := none, coordinatorNotes := none,
        reviewedAt := none }).1 hd,
    (wfDocState_preserved _ "Under Review" none 300 0
      { label := "BIRADS 3", confidence := 1, probabilities := [("3", 1)],
        modelVersion := "v1", reviewStatus := none, coordinatorNotes := none,
        reviewedAt := none }).2.1 hd hq⟩

/-- Whether the character list of t is a suffix of the character list of
s, used for extension checks on archive entry names. -/
def strEndsWith (s t : String) : Bool :=
  t.data.isSuffixOf s.data

/-- Whether the character list of t starts the character list of s, used
to detect hidden and system entries in an archive. -/
def strBeginsWith (s t : String) : Bool :=
  t.data.isPrefixOf s.data

/-- Modelled from the spec: archive entry filtering of the Bulk Intake
Coordinator (spec 4.3): hidden entries, system artifacts such as the
MACOSX folder, and non pdf entries are silently excluded, not treated as
failures. -/
def eligibleEntry (f : RawFile) : Bool :=
  !(strBeginsWith f.name ".") && !(strBeginsWith f.name "__MACOSX")
    && strEndsWith f.name ".pdf"

/-- Hands each file of the list to submit with consecutive fresh
document ids, each call independent of the others. -/
def submitEach (cfg : IntakeConfig) (A : Adapters) (submitter : String) :
    Nat → List RawFile → List (Except ValidationError SubmitOutcome)
  | _, [] => []
  | nextId, f :: fs =>
      submit cfg A f submitter nextId :: submitEach cfg A submitter (nextId + 1) fs

/-- Modelled from the spec: the result of a batch submission (spec 4.3):
total candidate count, accepted count, rejected-at-filtering count, and
the ordered per-document outcomes. -/
structure BatchResult where
  totalEntries : Nat
  acceptedCount : Nat
  rejectedCount : Nat
  outcomes : List (Except ValidationError SubmitOutcome)
deriving Repr

/-- Modelled from the spec: Bulk Intake Coordinator submit_batch
(spec 4.3, 7).  A corrupt archive is modelled as none.  Corrupt archives
and archives whose filtering leaves no eligible entry are a structural
ValidationError that creates no Document; otherwise every eligible entry
is handed to submit independently and every document that submit
persisted, failed stages included, is appended to the store. -/
def submit_batch (cfg : IntakeConfig) (A : Adapters) (store : List Document)
    (archive : Option (List RawFile)) (submitter : String) (baseId : Nat) :
    Except ValidationError BatchResult × List Document :=
  match archive with
  | none => (.error { message := "corrupt archive" }, store)
  | some entries =>
      let elig := entries.filter eligibleEntry
      if elig.isEmpty then
        (.error { message := "0 of 0 eligible files" }, store)
      else
        let outcomes := submitEach cfg A submitter baseId elig
        (.ok { totalEntries := entries.length,
               acceptedCount := elig.length,
               rejectedCount := entries.length - elig.length,
               outcomes := outcomes },
         store ++ outcomes.filterMap (fun o => o.toOption.map (fun s => s.doc)))

/-- Outcome list of a batch call, empty when the batch was rejected. -/
def batchOutcomes :
    Except ValidationError BatchResult → List (Except ValidationError SubmitOutcome)
  | .error _ => []
  | .ok b => b.outcomes

/-- Status of the document a per-file outcome persisted, if any. -/
def outcomeStatus : Except ValidationError SubmitOutcome → Option Status
  | .error _ => none
  | .ok o => some o.doc.status

lemma submitEach_getElem? (cfg : IntakeConfig) (A : Adapters) (submitter : String)
    (fs : List RawFile) : ∀ (n i : Nat),
    (submitEach cfg A submitter n fs)[i]?
      = (fs[i]?).map (fun f => submit cfg A f submitter (n + i)) := by
  induction fs with
  | nil => intro n i; simp [submitEach]
  | cons f fs ih =>
      intro n i
      cases i with
      | zero => simp [submitEach]
      | succ j =>
          have harith : n + 1 + j = n + (j + 1) := by omega
          simp only [submitEach, List.getElem?_cons_succ, ih (n + 1) j, harith]

/-- Intake policy used in the concrete batch scenarios. -/
def demoConfig : IntakeConfig :=
  { maxFileSize := 104857600, allowedTypes := ["application/pdf"] }

/-- Adapters for the concrete batch scenario: extraction fails exactly on
the third file, structuring succeeds on everything extracted. -/
def demoBatchAdapters : Adapters where
  extractText f :=
    if f.name = "file3.pdf" then .error { message := "ocr failed" }
    else .ok ("text of " ++ f.name)
  structureFields t := .ok [("observations", t)]
  predictRisk _ := .error { message := "not invoked" }

/-- The five archive entries of the concrete batch scenario. -/
def demoBatchFiles : List RawFile :=
  [{ name := "file1.pdf", size := 10, contentType := "application/pdf" },
   { name := "file2.pdf", size := 10, contentType := "application/pdf" },
   { name := "file3.pdf", size := 10, contentType := "application/pdf" },
   { name := "file4.pdf", size := 10, contentType := "application/pdf" },
   { name := "file5.pdf", size := 10, contentType := "application/pdf" }]

/-- C4: batch isolation.  First, generally: the outcome at position i of
any batch is exactly submit applied to the i-th eligible entry alone, so
no entry can abort or roll back another.  Second, concretely: in a batch
of five files where the third fails extraction, the other four reach
structured, the batch reports four successes and one failure rather than
a total abort, and all five documents are persisted. -/
theorem submit_batch_isolated :
    (∀ (cfg : IntakeConfig) (A : Adapters) (store : List Document)
        (entries : List RawFile) (submitter : String) (baseId i : Nat),
      (batchOutcomes (submit_batch cfg A store (some entries) submitter baseId).1)[i]?
        = ((entries.filter eligibleEntry)[i]?).map
            (fun f => submit cfg A f submitter (baseId + i))) ∧
    (batchOutcomes
        (submit_batch demoConfig demoBatchAdapters [] (some demoBatchFiles)
          "clinic" 0).1).map outcomeStatus
      = [some .structured, some .structured, some .extracting_failed,
         some .structured, some .structured] ∧
    ((batchOutcomes
        (submit_batch demoConfig demoBatchAdapters [] (some demoBatchFiles)
          "clinic" 0).1).countP
        (fun o => outcomeStatus o = some Status.structured)) = 4 ∧
    ((batchOutcomes
        (submit_batch demoConfig demoBatchAdapters [] (some demoBatchFiles)
          "clinic" 0).1).countP
        (fun o => outcomeStatus o = some Status.extracting_failed)) = 1 ∧
    (submit_batch demoConfig demoBatchAdapters [] (some demoBatchFiles)
        "clinic" 0).1.isOk = true ∧
    (submit_batch demoConfig demoBatchAdapters [] (some demoBatchFiles)
        "clinic" 0).2.length = 5 := by
  refine ⟨?_, by decide, by decide, by decide, by decide, by decide⟩
  intro cfg A store entries submitter baseId i
  simp only [submit_batch]
  by_cases h : (entries.filter eligibleEntry).isEmpty
  · have h0 : entries.filter eligibleEntry = [] := by
      simpa [List.isEmpty_iff] using h
    simp [h, h0, batchOutcomes]
  · simp [h, batchOutcomes, submitEach_getElem?]

/-- C5: a corrupt archive, and an archive whose filtering leaves no
eligible entry, are rejected with a structural ValidationError, and the
document store is unchanged: zero documents are created, never a silent
no-op. -/
theorem submit_batch_rejects_empty
    (cfg : IntakeConfig) (A : Adapters) (store : List Document)
    (submitter : String) (baseId : Nat) :
    (submit_batch cfg A store none submitter baseId).1
      = .error { message := "corrupt archive" } ∧
    (submit_batch cfg A store none submitter baseId).2 = store ∧
    (∀ entries : List RawFile, entries.filter eligibleEntry = [] →
      (submit_batch cfg A store (some entries) submitter baseId).1
        = .error { message := "0 of 0 eligible files" } ∧
      (submit_batch cfg A store (some entries) submitter baseId).2 = store) := by
  refine ⟨rfl, rfl, ?_⟩
  intro entries h
  constructor <;> simp [submit_batch, h]

/-- Concrete instance of the C5 theorem: an archive holding only a
hidden system file is rejected and creates nothing. -/
theorem submit_batch_rejects_empty_witness :
    ([{ name := ".DS_Store", size := 3,
        contentType := "application/octet-stream" }] : List RawFile).filter
        eligibleEntry = [] ∧
    (submit_batch demoConfig demoBatchAdapters []
        (some [{ name := ".DS_Store", size := 3,
                 contentType := "application/octet-stream" }]) "clinic" 0).1
      = .error { message := "0 of 0 eligible files" } ∧
    (submit_batch demoConfig demoBatchAdapters []
        (some [{ name := ".DS_Store", size := 3,
                 contentType := "application/octet-stream" }]) "clinic" 0).2
      = [] :=
  ⟨by decide,
   ((submit_batch_rejects_empty demoConfig demoBatchAdapters [] "clinic" 0).2.2
      [{ name := ".DS_Store", size := 3,
         contentType := "application/octet-stream" }] (by decide)).1,
   ((submit_batch_rejects_empty demoConfig demoBatchAdapters [] "clinic" 0).2.2
      [{ name := ".DS_Store", size := 3,
         contentType := "application/octet-stream" }] (by decide)).2⟩

end OdomosDsi
